import Mathlib

/-!
Shallow embedding of the trading-simulation kernel of the repository:
`src/backtest/portfolio.py`, `src/backtest/engine.py`,
`src/execution/risk_manager.py`, `src/execution/order_executor.py`,
`src/execution/slippage_model.py`, `src/execution/position_manager.py`,
`src/strategy/ema_bb_turtle.py`, `src/strategy/signal_generator.py`.

Python floats are modelled as rationals (ℚ); pandas Timestamps as minutes
since an epoch (ℤ), with `timestamp.date()` modelled as division by 1440.
Fallible code (Python `raise`) is modelled with `Except String`.
The engine is embedded on its default path: `use_smart_trading = False`,
so `smart_exit`, `risk_guardian` and the other optional trading modules
are `None` and their branches in `_process_bar_internal` are skipped,
exactly as the source skips them when the modules are not enabled.
-/

namespace Kernel

/-- Embedding of `Regime` enum of `src/strategy/base_strategy.py`. -/
inductive Regime
  | bull
  | bear
  | sideways
deriving DecidableEq

/-- Embedding of `.value` of the Python enum (`"bull" | "bear" | "sideways"`). -/
def Regime.value : Regime → String
  | .bull => "bull"
  | .bear => "bear"
  | .sideways => "sideways"

/-- Embedding of `SignalType` enum of `src/strategy/base_strategy.py`. -/
inductive SignalType
  | long_entry
  | short_entry
  | long_exit
  | short_exit
  | no_action
deriving DecidableEq

/-- Embedding of `timestamp.date()`: timestamps are minutes, a calendar day is 1440 minutes. -/
def dateOf (t : ℤ) : ℤ := t / 1440

/-- Embedding of `Signal` dataclass (fields used by the engine; `take_profit`/`metadata` are
never read on the embedded paths). -/
structure Signal where
  type : SignalType
  price : ℚ
  timestamp : ℤ
  regime : Regime
  stop_loss : Option ℚ := none
deriving DecidableEq

/-- Embedding of `Position` dataclass of `src/strategy/base_strategy.py` (without the
`metadata` dict, which the embedded paths only pass through). -/
structure Position where
  entry_price : ℚ
  entry_time : ℤ
  direction : String
  quantity : ℚ
  stop_loss : ℚ
  regime_at_entry : Regime
deriving DecidableEq

/-- Embedding of `Trade` dataclass of `src/backtest/portfolio.py`. `duration_bars` holds
minutes, as in the source (`total_seconds() / 60`). -/
structure Trade where
  entry_time : ℤ
  exit_time : ℤ
  direction : String
  entry_price : ℚ
  exit_price : ℚ
  quantity : ℚ
  pnl : ℚ
  commission : ℚ
  slippage : ℚ
  return_pct : ℚ
  duration_bars : ℚ
deriving DecidableEq

/-- One sample of `Portfolio.equity_curve`. -/
structure EquityPoint where
  timestamp : ℤ
  equity : ℚ
  cash : ℚ
  unrealized_pnl : ℚ
deriving DecidableEq

/-- One entry of `Portfolio.daily_stats`. -/
structure DailyStat where
  date : ℤ
  pnl : ℚ
  trades : ℕ
  equity : ℚ
deriving DecidableEq

/-- Embedding of `Portfolio` of `src/backtest/portfolio.py`. -/
structure Portfolio where
  initial_capital : ℚ
  cash : ℚ
  equity : ℚ
  position : Option Position
  trades : List Trade
  daily_stats : List DailyStat
  current_date : Option ℤ
  daily_pnl : ℚ
  daily_trades : ℕ
  equity_curve : List EquityPoint
deriving DecidableEq

/-- Unrealized pnl of an (optional) open position at a price:
`(price − entry) * qty` for a long, mirrored for a short, `0` if none. -/
def unrealizedPnl (pos : Option Position) (price : ℚ) : ℚ :=
  match pos with
  | none => 0
  | some p =>
      if p.direction = "long" then (price - p.entry_price) * p.quantity
      else (p.entry_price - price) * p.quantity

/-- Embedding of `Portfolio.open_position` (portfolio.py lines 60-83): stores the position
and debits cash by `fill_price * quantity + commission`. The `slippage`
argument is accepted and ignored, as in the source body. -/
def Portfolio.open_position (p : Portfolio) (position : Position)
    (fill_price commission _slippage : ℚ) : Portfolio :=
  { p with position := some position,
           cash := p.cash - (fill_price * position.quantity + commission) }

/-- Embedding of `Portfolio.close_position` (portfolio.py lines 85-160). Raising
`ValueError` when no position is open is modelled as `Except.error`; the
raise happens before any field is written, so the error case returns no
new portfolio. -/
def Portfolio.close_position (p : Portfolio) (exit_price commission slippage : ℚ)
    (timestamp : ℤ) : Except String (Trade × Portfolio) :=
  match p.position with
  | none => .error "포지션이 없습니다."
  | some pos =>
      let pnl0 : ℚ :=
        if pos.direction = "long" then (exit_price - pos.entry_price) * pos.quantity
        else (pos.entry_price - exit_price) * pos.quantity
      let pnl := pnl0 - commission - slippage * pos.quantity
      let entry_cost := pos.entry_price * pos.quantity
      let return_pct := if entry_cost > 0 then pnl / entry_cost else 0
      let duration : ℚ := ((timestamp - pos.entry_time : ℤ) : ℚ)
      let trade : Trade :=
        { entry_time := pos.entry_time, exit_time := timestamp,
          direction := pos.direction, entry_price := pos.entry_price,
          exit_price := exit_price, quantity := pos.quantity, pnl := pnl,
          commission := commission, slippage := slippage,
          return_pct := return_pct, duration_bars := duration }
      let cash' :=
        if pos.direction = "long" then p.cash + exit_price * pos.quantity - commission
        else p.cash + pos.entry_price * pos.quantity + pnl
      .ok (trade,
        { p with cash := cash',
                 trades := p.trades ++ [trade],
                 daily_pnl := p.daily_pnl + pnl,
                 daily_trades := p.daily_trades + 1,
                 position := none })

/-- Embedding of `Portfolio.update_equity` (portfolio.py lines 162-208). A `none` price is
never passed by the engine; Python's `if self.position and current_price:`
treats a zero price like a missing one, which the embedding mirrors with
`current_price ≠ 0`. `timestamp = none` models the engine passing `None`
on bars where the equity curve is not recorded. -/
def Portfolio.update_equity (p : Portfolio) (current_price : ℚ)
    (timestamp : Option ℤ) : Portfolio :=
  let hasPos := p.position.isSome ∧ current_price ≠ 0
  let equity' := if hasPos then p.cash + unrealizedPnl p.position current_price else p.cash
  match timestamp with
  | none => { p with equity := equity' }
  | some ts =>
      let unreal := if hasPos then unrealizedPnl p.position current_price else 0
      let curve' := p.equity_curve ++
        [{ timestamp := ts, equity := equity', cash := p.cash, unrealized_pnl := unreal }]
      let dateChanged : Bool :=
        match p.current_date with
        | none => true
        | some d => dateOf ts ≠ dateOf d
      if dateChanged then
        let stats' :=
          match p.current_date with
          | none => p.daily_stats
          | some d => p.daily_stats ++
              [{ date := dateOf d, pnl := p.daily_pnl, trades := p.daily_trades,
                 equity := equity' }]
        { p with equity := equity', equity_curve := curve', daily_stats := stats',
                 current_date := some ts, daily_pnl := 0, daily_trades := 0 }
      else
        { p with equity := equity', equity_curve := curve' }

/-- Embedding of `risk.portfolio` configuration of `RiskManager` (risk_manager.py lines 28-30). -/
structure PortfolioRiskCfg where
  max_drawdown_limit : ℚ
  daily_loss_limit : ℚ
  max_daily_trades : ℕ
deriving DecidableEq

/-- Embedding of `risk.position_sizing.fixed` configuration. -/
structure FixedCfg where
  quantity : ℚ
deriving DecidableEq

/-- Embedding of `risk.position_sizing.risk_pct` configuration. -/
structure RiskPctCfg where
  account_risk_per_trade : ℚ
deriving DecidableEq

/-- Embedding of `risk.position_sizing.kelly` configuration. -/
structure KellyCfg where
  fraction : ℚ
  lookback_trades : ℕ
deriving DecidableEq

/-- Embedding of `risk.position_sizing.volatility_adjusted` configuration. -/
structure VolAdjCfg where
  base_size : ℚ
deriving DecidableEq

/-- Embedding of `risk.position_sizing` configuration of `RiskManager`. -/
structure SizingCfg where
  method : String
  fixed : FixedCfg
  risk_pct : RiskPctCfg
  kelly : KellyCfg
  volatility_adjusted : VolAdjCfg
deriving DecidableEq

/-- Embedding of `RiskManager.check_portfolio_risk` (risk_manager.py lines 160-196):
returns `true` when trading is allowed, `false` on deny. Drawdown is taken
from the `initial_capital` argument, exactly as in the source. -/
def check_portfolio_risk (cfg : PortfolioRiskCfg)
    (current_equity initial_capital daily_pnl : ℚ) (daily_trades : ℕ) : Bool :=
  let drawdown := (initial_capital - current_equity) / initial_capital
  if drawdown ≥ cfg.max_drawdown_limit then false
  else
    let daily_loss_pct := if daily_pnl < 0 then |daily_pnl| / initial_capital else 0
    if daily_loss_pct ≥ cfg.daily_loss_limit then false
    else if cfg.max_daily_trades ≤ daily_trades then false
    else true

/-- Modelled from the spec: the spec's §4.3/§3 deny predicate, with drawdown
"the decline of equity from its running peak, expressed as a fraction"
(spec glossary). The source's `check_portfolio_risk` takes no running peak;
this definition takes it as an extra argument so the two can be compared. -/
def spec_check_portfolio_risk_deny (cfg : PortfolioRiskCfg)
    (peak_equity current_equity initial_capital daily_pnl : ℚ)
    (daily_trades : ℕ) : Bool :=
  let drawdown := (peak_equity - current_equity) / peak_equity
  if drawdown ≥ cfg.max_drawdown_limit then true
  else
    let daily_loss_pct := if daily_pnl < 0 then |daily_pnl| / initial_capital else 0
    if daily_loss_pct ≥ cfg.daily_loss_limit then true
    else if cfg.max_daily_trades ≤ daily_trades then true
    else false

/-- Embedding of `RiskManager._calculate_risk_pct_size` (risk_manager.py lines 75-102). -/
def calculate_risk_pct_size (cfg : SizingCfg)
    (account_balance entry_price stop_loss : ℚ) (direction : String) : ℚ :=
  let risk_per_unit :=
    if direction = "long" then entry_price - stop_loss else stop_loss - entry_price
  if risk_per_unit ≤ 0 then 0
  else account_balance * cfg.risk_pct.account_risk_per_trade / risk_per_unit

/-- Embedding of `np.mean` on a list of rationals. -/
def listMean (l : List ℚ) : ℚ := l.sum / (l.length : ℚ)

/-- The window `trade_history[-lookback:]` used by Kelly sizing; Python's
`lst[-0:]` is the whole list, hence the zero guard. -/
def kellyRecent (cfg : SizingCfg) (trade_history : List ℚ) : List ℚ :=
  if cfg.kelly.lookback_trades = 0 then trade_history
  else trade_history.drop (trade_history.length - cfg.kelly.lookback_trades)

/-- Winning trades of the Kelly window (`pnl > 0`). -/
def kellyWins (cfg : SizingCfg) (trade_history : List ℚ) : List ℚ :=
  (kellyRecent cfg trade_history).filter (fun t => t > 0)

/-- Losing trades of the Kelly window (`pnl ≤ 0`). -/
def kellyLosses (cfg : SizingCfg) (trade_history : List ℚ) : List ℚ :=
  (kellyRecent cfg trade_history).filter (fun t => t ≤ 0)

/-- Embedding of `RiskManager._calculate_kelly_size` (risk_manager.py lines 104-148).
`trade_history` is the list of recorded trade pnls. -/
def calculate_kelly_size (cfg : SizingCfg) (trade_history : List ℚ)
    (account_balance entry_price stop_loss : ℚ) (direction : String) : ℚ :=
  if trade_history.length < cfg.kelly.lookback_trades then
    calculate_risk_pct_size cfg account_balance entry_price stop_loss direction
  else
    let recent := kellyRecent cfg trade_history
    let wins := kellyWins cfg trade_history
    let losses := kellyLosses cfg trade_history
    if wins = [] ∨ losses = [] then
      calculate_risk_pct_size cfg account_balance entry_price stop_loss direction
    else
      let win_rate := (wins.length : ℚ) / (recent.length : ℚ)
      let avg_win := listMean wins
      let avg_loss := |listMean losses|
      if avg_loss = 0 then
        calculate_risk_pct_size cfg account_balance entry_price stop_loss direction
      else
        let win_loss_ratio := avg_win / avg_loss
        let kelly_percent := win_rate - (1 - win_rate) / win_loss_ratio
        let clamped := max 0 (min kelly_percent 1)
        account_balance * (clamped * cfg.kelly.fraction) / entry_price

/-- Embedding of `RiskManager.calculate_position_size` (risk_manager.py lines 37-68):
dispatch on the configured method; an unknown method falls back to fixed. -/
def calculate_position_size (cfg : SizingCfg) (trade_history : List ℚ)
    (account_balance entry_price stop_loss : ℚ) (direction : String) : ℚ :=
  if cfg.method = "fixed" then cfg.fixed.quantity
  else if cfg.method = "risk_pct" then
    calculate_risk_pct_size cfg account_balance entry_price stop_loss direction
  else if cfg.method = "kelly" then
    calculate_kelly_size cfg trade_history account_balance entry_price stop_loss direction
  else if cfg.method = "volatility_adjusted" then cfg.volatility_adjusted.base_size
  else cfg.fixed.quantity

/-- Embedding of `execution.slippage` configuration of `SlippageModel`. -/
structure SlippageCfg where
  model : String
  fixed_pct : ℚ
  vb_base_slippage : ℚ
  vb_volume_impact : ℚ
deriving DecidableEq

/-- Embedding of `execution.commission` configuration of `OrderExecutor`. -/
structure CommissionCfg where
  ctype : String
  taker : ℚ
  fixed : ℚ
deriving DecidableEq

/-- Embedding of `execution` configuration. -/
structure ExecCfg where
  slippage : SlippageCfg
  commission : CommissionCfg
deriving DecidableEq

/-- Embedding of `SlippageModel.calculate_slippage` (slippage_model.py lines 24-88).
An unknown model name logs a warning and falls back to `fixed_pct`
(lines 51-53); it does not raise. -/
def calculate_slippage (cfg : SlippageCfg) (price quantity : ℚ)
    (_side : String) (volume : Option ℚ) : ℚ :=
  if cfg.model = "none" then 0
  else if cfg.model = "fixed_pct" then price * cfg.fixed_pct
  else if cfg.model = "volume_based" then
    match volume with
    | none => price * cfg.fixed_pct
    | some v =>
        if v = 0 then price * cfg.fixed_pct
        else price * (cfg.vb_base_slippage + quantity / v * cfg.vb_volume_impact)
  else if cfg.model = "historical" then price * cfg.fixed_pct
  else price * cfg.fixed_pct

/-- Embedding of `OrderExecutor._calculate_commission` (order_executor.py lines 112-131):
an unknown commission type raises `ValueError`. -/
def calculate_commission (cfg : CommissionCfg) (trade_value : ℚ) : Except String ℚ :=
  if cfg.ctype = "percentage" then .ok (trade_value * cfg.taker)
  else if cfg.ctype = "fixed" then .ok cfg.fixed
  else .error ("알 수 없는 수수료 타입: " ++ cfg.ctype)

/-- Embedding of `Order` dataclass of `src/execution/order_executor.py` (symbol omitted:
it is never read by the execution logic). -/
structure Order where
  side : String
  quantity : ℚ
  order_type : String
  limit_price : Option ℚ := none
  timestamp : ℤ
deriving DecidableEq

/-- Embedding of `Fill` dataclass of `src/execution/order_executor.py` (without the
back-reference to the order). -/
structure Fill where
  fill_price : ℚ
  fill_quantity : ℚ
  commission : ℚ
  slippage : ℚ
  timestamp : ℤ
deriving DecidableEq

/-- Embedding of `OrderExecutor.execute_order` (order_executor.py lines 53-110): determine
the raw fill price (market ⇒ current price, limit ⇒ limit price or error,
anything else ⇒ error), apply slippage against the trader, then commission
on the slipped notional. -/
def execute_order (cfg : ExecCfg) (order : Order) (current_price : ℚ)
    (volume : Option ℚ) : Except String Fill :=
  let priceE : Except String ℚ :=
    if order.order_type = "market" then .ok current_price
    else if order.order_type = "limit" then
      match order.limit_price with
      | none => .error "Limit 주문에는 limit_price가 필요합니다."
      | some lp => .ok lp
    else .error ("알 수 없는 주문 타입: " ++ order.order_type)
  match priceE with
  | .error e => .error e
  | .ok p0 =>
      let slip := calculate_slippage cfg.slippage p0 order.quantity order.side volume
      let fp := if order.side = "buy" then p0 + slip else p0 - slip
      match calculate_commission cfg.commission (fp * order.quantity) with
      | .error e => .error e
      | .ok comm =>
          .ok { fill_price := fp, fill_quantity := order.quantity,
                commission := comm, slippage := slip, timestamp := order.timestamp }

/-- Exit/trailing configuration of `EMABBTurtleStrategy` and its
`SignalGenerator` (`strategy.exit` in the YAML config). -/
structure StrategyExitCfg where
  regime_exit_enabled : Bool
  time_exit_enabled : Bool
  time_exit_max_bars : ℤ
  atr_multiplier : ℚ
  update_on : String
deriving DecidableEq

/-- Embedding of `SignalGenerator.check_exit_conditions` (signal_generator.py lines
160-203): stop-loss breach first, then optional regime-flip exit, then
optional time exit. `getLoc` models `df.index.get_loc`. -/
def check_exit_conditions (cfg : StrategyExitCfg) (getLoc : ℤ → ℕ) (idx : ℕ)
    (close_price : ℚ) (pos : Position) (regime : Regime) : Bool :=
  if pos.direction = "long" ∧ close_price ≤ pos.stop_loss then true
  else if pos.direction ≠ "long" ∧ close_price ≥ pos.stop_loss then true
  else if cfg.regime_exit_enabled ∧ regime ≠ pos.regime_at_entry then true
  else if cfg.time_exit_enabled ∧
      cfg.time_exit_max_bars ≤ (idx : ℤ) - (getLoc pos.entry_time : ℤ) then true
  else false

/-- Embedding of `EMABBTurtleStrategy.generate_exit_signal` (ema_bb_turtle.py lines
164-201). The caller supplies the bar's close, timestamp and cached regime;
`idx ≥ dfLen` yields the source's NO_ACTION guard. -/
def generate_exit_signal (cfg : StrategyExitCfg) (getLoc : ℤ → ℕ)
    (dfLen idx : ℕ) (close_price : ℚ) (ts : ℤ) (regime : Regime)
    (pos : Position) : Signal :=
  if dfLen ≤ idx then
    { type := .no_action, price := close_price, timestamp := ts, regime := .sideways }
  else if check_exit_conditions cfg getLoc idx close_price pos regime then
    { type := if pos.direction = "long" then .long_exit else .short_exit,
      price := close_price, timestamp := ts, regime := regime }
  else
    { type := .no_action, price := close_price, timestamp := ts, regime := regime }

/-- Embedding of `EMABBTurtleStrategy.update_stop_loss` (ema_bb_turtle.py lines 203-247).
`atr_value = none` models a NaN ATR (`pd.isna`). -/
def update_stop_loss (cfg : StrategyExitCfg) (dfLen idx : ℕ)
    (close_price : ℚ) (atr_value : Option ℚ) (pos : Position) : ℚ :=
  if dfLen ≤ idx then pos.stop_loss
  else
    match atr_value with
    | none => pos.stop_loss
    | some atr =>
        if atr = 0 then pos.stop_loss
        else if pos.direction = "long" then
          let new_stop := close_price - atr * cfg.atr_multiplier
          if cfg.update_on = "always" then max new_stop pos.stop_loss
          else if cfg.update_on = "favorable_move" then
            if close_price > pos.entry_price then max new_stop pos.stop_loss
            else pos.stop_loss
          else pos.stop_loss
        else
          let new_stop := close_price + atr * cfg.atr_multiplier
          if cfg.update_on = "always" then min new_stop pos.stop_loss
          else if cfg.update_on = "favorable_move" then
            if close_price < pos.entry_price then min new_stop pos.stop_loss
            else pos.stop_loss
          else pos.stop_loss

/-- Configuration of `BacktestEngine` needed by the per-bar loop. -/
structure EngineCfg where
  risk : PortfolioRiskCfg
  sizing : SizingCfg
  exec : ExecCfg
  strat : StrategyExitCfg
  max_open_positions : ℕ
  dfLen : ℕ
deriving DecidableEq

/-- One precomputed bar of the optimized loop (`engine.py` lines 180-218):
close price, timestamp, volume, cached regime and the indicator values the
optimized signal paths read. `none` for an indicator models a missing
column or NaN value. -/
structure BarData where
  idx : ℕ
  price : ℚ
  timestamp : ℤ
  volume : ℚ
  regime : Regime
  atr : Option ℚ
  bb_upper : Option ℚ
  bb_lower : Option ℚ
deriving DecidableEq

/-- Mutable state of `BacktestEngine` across bars: the portfolio, the
position manager's list, the engine's own daily-trade counter and tracked
date, and the risk manager's recorded trade pnls. -/
structure EngineState where
  portfolio : Portfolio
  positions : List Position
  daily_trades : ℕ
  current_date : Option ℤ
  risk_history : List ℚ
deriving DecidableEq

/-- Python's `list.remove`: drop the first (field-)equal element, no-op if
absent (`PositionManager.remove_position`). -/
def removeFirst (l : List Position) (x : Position) : List Position :=
  match l with
  | [] => []
  | a :: t => if a = x then t else a :: removeFirst t x

/-- Python's `signal.stop_loss or current_price`: `None` and `0.0` are both
falsy and select the default. -/
def pyOr (x : Option ℚ) (default : ℚ) : ℚ :=
  match x with
  | none => default
  | some v => if v = 0 then default else v

/-- Date bookkeeping of `_process_bar_internal` (engine.py lines 313-318):
the engine's own `daily_trades` resets when the bar's calendar date differs
from the engine's tracked date. -/
def stepDate (s : EngineState) (bar : BarData) : EngineState :=
  match s.current_date with
  | none => { s with current_date := some bar.timestamp }
  | some d =>
      if dateOf bar.timestamp ≠ dateOf d then
        { s with daily_trades := 0, current_date := some bar.timestamp }
      else s

/-- Embedding of `record_equity` of `_process_bar_internal` (engine.py lines 322-326):
the equity curve is recorded only with an open position, every 10th bar, or
on the final bar. -/
def recordEquityFlag (cfg : EngineCfg) (s : EngineState) (bar : BarData) : Bool :=
  ¬ s.positions.isEmpty ∨ bar.idx % 10 = 0 ∨ bar.idx = cfg.dfLen - 1

/-- Embedding of `BacktestEngine._generate_entry_signal_optimized` (engine.py lines
483-606) with the smart-trading modules disabled: Bollinger-band touch
gated by regime, stop from ATR (fallback ±2%). -/
def gen_entry_signal_optimized (bar : BarData) : Option Signal :=
  match bar.bb_upper, bar.bb_lower with
  | some bu, some bl =>
      if bar.price ≤ bl ∧ bar.regime.value = "bull" then
        some { type := .long_entry, price := bar.price, timestamp := bar.timestamp,
               regime := bar.regime,
               stop_loss := some (match bar.atr with
                 | some a => bar.price - a * 2
                 | none => bar.price * (98 / 100)) }
      else if bu ≤ bar.price ∧ bar.regime.value = "bear" then
        some { type := .short_entry, price := bar.price, timestamp := bar.timestamp,
               regime := bar.regime,
               stop_loss := some (match bar.atr with
                 | some a => bar.price + a * 2
                 | none => bar.price * (102 / 100)) }
      else none
  | _, _ => none

/-- Embedding of `BacktestEngine._generate_exit_signal_optimized` (engine.py lines
608-623): regime-flip exit only (the stop was already checked inline). -/
def gen_exit_signal_optimized (bar : BarData) (pos : Position) : Option Signal :=
  if bar.regime ≠ pos.regime_at_entry then
    some { type := if pos.direction = "long" then .long_exit else .short_exit,
           price := bar.price, timestamp := bar.timestamp, regime := bar.regime }
  else none

/-- Embedding of `RiskManager.record_trade` (risk_manager.py lines 198-209): append the
pnl, keep at most the last 1000 entries. -/
def record_trade (history : List ℚ) (pnl : ℚ) : List ℚ :=
  let h := history ++ [pnl]
  if 1000 < h.length then h.drop (h.length - 1000) else h

/-- Embedding of `BacktestEngine._open_position_optimized` (engine.py lines 625-666):
size the position, execute a market order, then add the position if the
manager has capacity and debit the portfolio. -/
def open_position_optimized (cfg : EngineCfg) (s : EngineState) (bar : BarData)
    (signal : Signal) : Except String EngineState :=
  let direction := if signal.type = .long_entry then "long" else "short"
  let position_size := calculate_position_size cfg.sizing s.risk_history
    s.portfolio.equity bar.price (pyOr signal.stop_loss bar.price) direction
  if position_size ≤ 0 then .ok s
  else
    let order : Order :=
      { side := if signal.type = .long_entry then "buy" else "sell",
        quantity := position_size, order_type := "market",
        timestamp := bar.timestamp }
    match execute_order cfg.exec order bar.price (some bar.volume) with
    | .error e => .error e
    | .ok fill =>
        let pos : Position :=
          { direction := direction, entry_price := fill.fill_price,
            quantity := position_size, entry_time := bar.timestamp,
            stop_loss := pyOr signal.stop_loss bar.price,
            regime_at_entry := signal.regime }
        if cfg.max_open_positions ≤ s.positions.length then .ok s
        else .ok { s with
          positions := s.positions ++ [pos],
          portfolio := s.portfolio.open_position pos fill.fill_price
            fill.commission fill.slippage }

/-- Embedding of `BacktestEngine._close_position_optimized` (engine.py lines 668-765) with
smart trading disabled: market order at the bar's close, portfolio close,
remove from the manager, bump the engine's daily-trade counter. -/
def close_position_optimized (cfg : EngineCfg) (s : EngineState) (bar : BarData)
    (pos : Position) : Except String EngineState :=
  let order : Order :=
    { side := if pos.direction = "long" then "sell" else "buy",
      quantity := pos.quantity, order_type := "market",
      timestamp := bar.timestamp }
  match execute_order cfg.exec order bar.price (some bar.volume) with
  | .error e => .error e
  | .ok fill =>
      match s.portfolio.close_position fill.fill_price fill.commission
          fill.slippage bar.timestamp with
      | .error e => .error e
      | .ok (_, pf') =>
          .ok { s with portfolio := pf',
                       positions := removeFirst s.positions pos,
                       daily_trades := s.daily_trades + 1 }

/-- Embedding of `BacktestEngine._close_position` (engine.py lines 817-864), used by the
risk-deny branch: market order at the signal's price, portfolio close at the
fill, record the pnl with the risk manager, remove the position. -/
def close_position_plain (cfg : EngineCfg) (s : EngineState) (signal : Signal)
    (volume : ℚ) : Except String EngineState :=
  match s.positions.head? with
  | none => .ok s
  | some pos =>
      let order : Order :=
        { side := if pos.direction = "long" then "sell" else "buy",
          quantity := pos.quantity, order_type := "market",
          timestamp := signal.timestamp }
      match execute_order cfg.exec order signal.price (some volume) with
      | .error e => .error e
      | .ok fill =>
          match s.portfolio.close_position fill.fill_price fill.commission
              fill.slippage signal.timestamp with
          | .error e => .error e
          | .ok (trade, pf') =>
              .ok { s with portfolio := pf',
                           positions := removeFirst s.positions pos,
                           risk_history := record_trade s.risk_history trade.pnl,
                           daily_trades := s.daily_trades + 1 }

/-- The engine state right before the risk gate of `_process_bar_internal`:
date bookkeeping done (engine.py lines 313-318) and the per-bar equity
update applied, with the equity curve recorded only when
`recordEquityFlag` holds (engine.py lines 320-330). -/
def preRiskState (cfg : EngineCfg) (s : EngineState) (bar : BarData) : EngineState :=
  let s1 := stepDate s bar
  let ts : Option ℤ := if recordEquityFlag cfg s1 bar then some bar.timestamp else none
  { s1 with portfolio := s1.portfolio.update_equity bar.price ts }

/-- The risk-gate query of `_process_bar_internal` (engine.py lines 332-338):
`true` when `check_portfolio_risk` denies trading on this bar. -/
def riskDenied (cfg : EngineCfg) (s : EngineState) (bar : BarData) : Bool :=
  let s2 := preRiskState cfg s bar
  !(check_portfolio_risk cfg.risk s2.portfolio.equity s2.portfolio.initial_capital
      s2.portfolio.daily_pnl s2.daily_trades)

/-- Embedding of `BacktestEngine._process_bar_internal` (engine.py lines 292-481) with
`use_smart_trading = False`: date bookkeeping, equity update (sparsely
recorded), portfolio risk gate (on deny: ask the strategy for an exit
signal and close only if it fires, then stop for this bar), else trailing
stop update + stop breach + regime-flip exit when a position is open, or
the optimized entry path when flat. `update_position_stop_loss` mutates
the shared Position object, so the same update is applied to the manager's
list head and the portfolio's aliased open position. -/
def process_bar (cfg : EngineCfg) (getLoc : ℤ → ℕ) (s : EngineState)
    (bar : BarData) : Except String EngineState :=
  let s2 := preRiskState cfg s bar
  if riskDenied cfg s bar then
    match s2.positions.head? with
    | none => .ok s2
    | some pos =>
        let sig := generate_exit_signal cfg.strat getLoc cfg.dfLen bar.idx
          bar.price bar.timestamp bar.regime pos
        if sig.type ≠ .no_action then close_position_plain cfg s2 sig bar.volume
        else .ok s2
  else
    match s2.positions.head? with
    | some pos =>
        let newStop := update_stop_loss cfg.strat cfg.dfLen bar.idx bar.price
          bar.atr pos
        let pos' := { pos with stop_loss := newStop }
        let s3 := { s2 with
          positions := pos' :: s2.positions.tail,
          portfolio := { s2.portfolio with
            position := s2.portfolio.position.map
              (fun q => if q = pos then pos' else q) } }
        let breach :=
          if pos'.direction = "long" then bar.price ≤ pos'.stop_loss
          else pos'.stop_loss ≤ bar.price
        if breach then close_position_optimized cfg s3 bar pos'
        else
          match gen_exit_signal_optimized bar pos' with
          | some sig =>
              if sig.type ≠ .no_action then close_position_optimized cfg s3 bar pos'
              else .ok s3
          | none => .ok s3
    | none =>
        match gen_entry_signal_optimized bar with
        | some sig =>
            if sig.type = .long_entry ∨ sig.type = .short_entry then
              open_position_optimized cfg s2 bar sig
            else .ok s2
        | none => .ok s2

/-- Projection of a non-error result, for evaluating runs on concrete inputs. -/
def okValue {α : Type} : Except String α → Option α
  | .ok a => some a
  | .error _ => none

/-! Concrete configurations and states, used to evaluate the embedded code
on specific inputs. The configuration values are the defaults of
`risk_manager.py`, `slippage_model.py` and `order_executor.py`
(`max_drawdown_limit 0.20`, `daily_loss_limit 0.05`, `max_daily_trades 50`,
`fixed_pct 0.0001`, taker `0.0004`). -/

/-- Default `risk.portfolio` limits (risk_manager.py lines 28-30). -/
def defaultRiskCfg : PortfolioRiskCfg :=
  { max_drawdown_limit := 1/5, daily_loss_limit := 1/20, max_daily_trades := 50 }

/-- A fixed-quantity sizing configuration. -/
def defaultSizingCfg : SizingCfg :=
  { method := "fixed", fixed := { quantity := 1 },
    risk_pct := { account_risk_per_trade := 1/100 },
    kelly := { fraction := 1/4, lookback_trades := 100 },
    volatility_adjusted := { base_size := 1 } }

/-- Default execution configuration: `fixed_pct` slippage 0.0001, percentage
commission with taker rate 0.0004. -/
def defaultExecCfg : ExecCfg :=
  { slippage := { model := "fixed_pct", fixed_pct := 1/10000,
                  vb_base_slippage := 1/10000, vb_volume_impact := 1/100000 },
    commission := { ctype := "percentage", taker := 1/2500, fixed := 0 } }

/-- Strategy exit configuration with regime/time exits disabled and the
`favorable_move` trailing policy (the strategy defaults). -/
def defaultStratCfg : StrategyExitCfg :=
  { regime_exit_enabled := false, time_exit_enabled := false,
    time_exit_max_bars := 1440, atr_multiplier := 2, update_on := "favorable_move" }

/-- Engine configuration assembling the defaults over a 1000-bar frame. -/
def defaultEngineCfg : EngineCfg :=
  { risk := defaultRiskCfg, sizing := defaultSizingCfg, exec := defaultExecCfg,
    strat := defaultStratCfg, max_open_positions := 1, dfLen := 1000 }

/-- A trivial `df.index.get_loc` for concrete runs. -/
def theGetLoc : ℤ → ℕ := fun _ => 0

/-- A market buy order of quantity 1 (Scenario C of the spec). -/
def mktBuyOrder : Order :=
  { side := "buy", quantity := 1, order_type := "market", timestamp := 0 }

/-- An open long position: entry 100, quantity 1, stop 80, entered in a bull
regime at time 0. -/
def longPos80 : Position :=
  { entry_price := 100, entry_time := 0, direction := "long", quantity := 1,
    stop_loss := 80, regime_at_entry := .bull }

/-- A portfolio deep in loss with `longPos80` open: cash 100 against an
initial capital of 100000, so the bar's equity update puts the drawdown far
over the 20% limit. -/
def drawdownPortfolio : Portfolio :=
  { initial_capital := 100000, cash := 100, equity := 100,
    position := some longPos80, trades := [], daily_stats := [],
    current_date := some 0, daily_pnl := 0, daily_trades := 0, equity_curve := [] }

/-- Engine state holding `drawdownPortfolio` with `longPos80` in the
position manager. -/
def drawdownState : EngineState :=
  { portfolio := drawdownPortfolio, positions := [longPos80],
    daily_trades := 0, current_date := some 0, risk_history := [] }

/-- A bar at price 90 in a bull regime: above the stop 80, same regime as
entry, so the strategy's exit signal is NO_ACTION. -/
def denyBar : BarData :=
  { idx := 101, price := 90, timestamp := 5, volume := 1000, regime := .bull,
    atr := some 1, bb_upper := none, bb_lower := none }

/-- A flat portfolio carrying nonzero daily counters (daily pnl 5, one trade
today) with tracked date 0. -/
def carryPortfolio : Portfolio :=
  { initial_capital := 100000, cash := 100000, equity := 100000,
    position := none, trades := [], daily_stats := [], current_date := some 0,
    daily_pnl := 5, daily_trades := 1, equity_curve := [] }

/-- Engine state holding `carryPortfolio`, engine-tracked date 0 and three
engine-counted trades today. -/
def carryState : EngineState :=
  { portfolio := carryPortfolio, positions := [], daily_trades := 3,
    current_date := some 0, risk_history := [] }

/-- The first bar of the next calendar day (minute 1440) at an index that is
neither a multiple of 10 nor the final bar, with no indicators. -/
def newDayBar : BarData :=
  { idx := 101, price := 100, timestamp := 1440, volume := 0,
    regime := .sideways, atr := none, bb_upper := none, bb_lower := none }

/-- A portfolio whose open position is `longPos80` and whose cash is 0, for
exercising `close_position` in isolation. -/
def closeDemoPortfolio : Portfolio :=
  { initial_capital := 1000, cash := 0, equity := 0, position := some longPos80,
    trades := [], daily_stats := [], current_date := none, daily_pnl := 0,
    daily_trades := 0, equity_curve := [] }

/-- A portfolio with no open position. -/
def flatPortfolio : Portfolio :=
  { initial_capital := 1000, cash := 1000, equity := 1000, position := none,
    trades := [], daily_stats := [], current_date := none, daily_pnl := 0,
    daily_trades := 0, equity_curve := [] }

/-- Execution configuration whose slippage model name is not one of the four
known models. -/
def bogusSlippageExecCfg : ExecCfg :=
  { slippage := { model := "bogus", fixed_pct := 1/10000,
                  vb_base_slippage := 1/10000, vb_volume_impact := 1/100000 },
    commission := { ctype := "percentage", taker := 1/2500, fixed := 0 } }

end Kernel

namespace Kernel

/-- C2: at every bar boundary, after the per-bar equity update, portfolio
equity equals cash plus the unrealized pnl of the open position at the
current price, and equals cash exactly when no position is open. The engine
calls `update_equity` with the bar's close on every bar (engine.py lines
320-330); bar prices are nonzero, which is the `hprice` hypothesis
(Python's truthiness test `if self.position and current_price` treats a
zero price as absent). -/
theorem equity_invariant_after_update (p : Portfolio) (price : ℚ)
    (ts : Option ℤ) (hprice : price ≠ 0) :
    (p.update_equity price ts).equity = p.cash + unrealizedPnl p.position price ∧
    (p.update_equity price ts).cash = p.cash ∧
    (p.position = none → (p.update_equity price ts).equity = p.cash) := by
  unfold Portfolio.update_equity
  cases ts <;> cases hpos : p.position <;>
    simp [hpos, unrealizedPnl, hprice] <;> split_ifs <;> simp

/-- Witness for `equity_invariant_after_update` at a concrete portfolio and
price. -/
theorem equity_invariant_after_update_witness :
    (drawdownPortfolio.update_equity 90 none).equity =
      drawdownPortfolio.cash + unrealizedPnl drawdownPortfolio.position 90 :=
  (equity_invariant_after_update drawdownPortfolio 90 none (by norm_num)).1

/-- C4: under the `favorable_move` trailing policy, `update_stop_loss`
returns a value ≥ the current stop for a long position and ≤ the current
stop for a short position, so the stop never regresses across successive
updates while the position stays open. -/
theorem trailing_stop_monotone (cfg : StrategyExitCfg) (dfLen idx : ℕ)
    (price : ℚ) (atr : Option ℚ) (pos : Position)
    (hcfg : cfg.update_on = "favorable_move") :
    (pos.direction = "long" →
      pos.stop_loss ≤ update_stop_loss cfg dfLen idx price atr pos) ∧
    (pos.direction = "short" →
      update_stop_loss cfg dfLen idx price atr pos ≤ pos.stop_loss) := by
  constructor
  · intro hdir
    unfold update_stop_loss
    cases atr with
    | none => split_ifs <;> simp
    | some a =>
        simp only [hdir, hcfg]
        split_ifs <;> simp [le_max_right]
  · intro hdir
    unfold update_stop_loss
    cases atr with
    | none => split_ifs <;> simp
    | some a =>
        simp only [hdir, hcfg]
        split_ifs <;> simp_all [min_le_right]

/-- Witness for `trailing_stop_monotone`: a long position at a favorable
bar. -/
theorem trailing_stop_monotone_witness :
    longPos80.stop_loss ≤ update_stop_loss defaultStratCfg 1000 5 110 (some 1) longPos80 :=
  (trailing_stop_monotone defaultStratCfg 1000 5 110 (some 1) longPos80 rfl).1 rfl

/-- C8 counterexample: the market buy of Scenario C fills at 100.01, but its
commission is exactly 0.040004 = 100.01 * 1 * 0.0004, which is not the
claimed 0.0400004 (the spec's figure has a misplaced zero). -/
theorem market_buy_scenario_c_counterexample :
    (okValue (execute_order defaultExecCfg mktBuyOrder 100 none)).map
        (fun f => (f.fill_price, f.commission)) = some (100.01, 0.040004) ∧
    (0.040004 : ℚ) ≠ 0.0400004 := by
  constructor
  · simp [execute_order, calculate_slippage, calculate_commission,
      defaultExecCfg, mktBuyOrder, okValue]
    norm_num
  · norm_num

/-- C8 amended: a market buy of quantity 1 at current price 100 under
`fixed_pct` slippage 0.0001 and percentage commission with taker rate
0.0004 fills at 100.01 with commission exactly
0.040004 = fill_price * quantity * taker rate. -/
theorem market_buy_scenario_c_amended :
    (okValue (execute_order defaultExecCfg mktBuyOrder 100 none)).map
        (fun f => (f.fill_price, f.commission)) = some (100.01, 0.040004) ∧
    (0.040004 : ℚ) = 100.01 * 1 * 0.0004 := by
  constructor
  · simp [execute_order, calculate_slippage, calculate_commission,
      defaultExecCfg, mktBuyOrder, okValue]
    norm_num
  · norm_num

/-- C3 counterexample: with equity 120000, an earlier running peak of 150000
and initial capital 100000, the peak-based drawdown is
(150000−120000)/150000 = 0.2 ≥ the 0.2 limit, so the claimed rule demands
deny — but `check_portfolio_risk` still allows trading, because the source
measures drawdown from `initial_capital`, not from a running peak (which
the function does not even receive). -/
theorem portfolio_risk_counterexample :
    spec_check_portfolio_risk_deny defaultRiskCfg 150000 120000 100000 0 0 = true ∧
    check_portfolio_risk defaultRiskCfg 120000 100000 0 0 = true := by
  constructor <;> · norm_num [spec_check_portfolio_risk_deny, check_portfolio_risk,
    defaultRiskCfg]

/-- C3 amended: `check_portfolio_risk` denies exactly when
(initial − equity)/initial ≥ max_drawdown_limit, or today's pnl is a loss
with |pnl|/initial ≥ daily_loss_limit, or today's trade count has reached
max_daily_trades — drawdown measured from the initial capital, not from a
running peak. The hypothesis excludes a non-positive daily-loss limit,
under which the source's `0 ≥ limit` comparison would also deny profitable
days. -/
theorem portfolio_risk_deny_iff (cfg : PortfolioRiskCfg) (e i pnl : ℚ) (n : ℕ)
    (hl : 0 < cfg.daily_loss_limit) :
    check_portfolio_risk cfg e i pnl n = false ↔
      ((i - e) / i ≥ cfg.max_drawdown_limit ∨
       (pnl < 0 ∧ |pnl| / i ≥ cfg.daily_loss_limit) ∨
       cfg.max_daily_trades ≤ n) := by
  unfold check_portfolio_risk
  by_cases h1 : (i - e) / i ≥ cfg.max_drawdown_limit
  · simp [h1]
  · by_cases hp : pnl < 0
    · by_cases h2 : |pnl| / i ≥ cfg.daily_loss_limit
      · simp [h1, hp, h2]
      · by_cases h3 : cfg.max_daily_trades ≤ n
        · simp [h1, hp, h2, h3]
        · simp [h1, hp, h2, h3]
    · have h0 : ¬ ((0 : ℚ) ≥ cfg.daily_loss_limit) := by linarith
      by_cases h3 : cfg.max_daily_trades ≤ n
      · simp [h1, hp, h0, h3]
      · simp [h1, hp, h0, h3]

/-- Witness for `portfolio_risk_deny_iff`: the default limits deny at equity
70000 on initial capital 100000 (30% drawdown). -/
theorem portfolio_risk_deny_iff_witness :
    check_portfolio_risk defaultRiskCfg 70000 100000 0 0 = false :=
  (portfolio_risk_deny_iff defaultRiskCfg 70000 100000 0 0
      (by norm_num [defaultRiskCfg])).mpr
    (Or.inl (by norm_num [defaultRiskCfg]))

/-- C6 counterexample: closing a long position (entry 100, quantity 1) at
exit 110 with commission 0 and slippage 1 records pnl 9 but credits cash by
110, whereas entry cost + pnl = 100 + 9 = 109: for a long position the cash
credit omits the slippage cost, so the claimed cash-consistency fails. -/
theorem close_long_cash_counterexample :
    (okValue (closeDemoPortfolio.close_position 110 0 1 10)).map
        (fun tp => (tp.1.pnl, tp.2.cash - closeDemoPortfolio.cash)) =
      some (9, 110) ∧
    (110 : ℚ) ≠ longPos80.entry_price * longPos80.quantity + 9 := by
  constructor
  · simp [Portfolio.close_position, closeDemoPortfolio, longPos80, okValue]
    norm_num
  · norm_num [longPos80]

/-- C6 amended: `close_position` computes pnl as (exit − entry)·qty for a
long (mirrored for a short) minus commission minus slippage·qty, appends
the trade, clears the position, and changes cash by entry cost + pnl for a
short but by entry cost + pnl + slippage·qty for a long — the long cash
credit `exit·qty − commission` omits the slippage cost. -/
theorem close_position_cash_characterization (p : Portfolio) (pos : Position)
    (e c sl : ℚ) (ts : ℤ) (h : p.position = some pos) :
    ∃ t p', p.close_position e c sl ts = .ok (t, p') ∧
      t.pnl = (if pos.direction = "long" then (e - pos.entry_price) * pos.quantity
               else (pos.entry_price - e) * pos.quantity) - c - sl * pos.quantity ∧
      t.exit_price = e ∧
      p'.position = none ∧
      p'.trades = p.trades ++ [t] ∧
      p'.cash - p.cash = pos.entry_price * pos.quantity + t.pnl +
        (if pos.direction = "long" then sl * pos.quantity else 0) := by
  unfold Portfolio.close_position
  rw [h]
  refine ⟨_, _, rfl, rfl, rfl, rfl, rfl, ?_⟩
  by_cases hdir : pos.direction = "long" <;> simp [hdir] <;> ring

/-- Witness for `close_position_cash_characterization` at a concrete long
close. -/
theorem close_position_cash_characterization_witness :
    ∃ t p', closeDemoPortfolio.close_position 110 0 1 10 = .ok (t, p') ∧
      t.pnl = (if longPos80.direction = "long"
               then (110 - longPos80.entry_price) * longPos80.quantity
               else (longPos80.entry_price - 110) * longPos80.quantity)
              - 0 - 1 * longPos80.quantity ∧
      t.exit_price = 110 ∧
      p'.position = none ∧
      p'.trades = closeDemoPortfolio.trades ++ [t] ∧
      p'.cash - closeDemoPortfolio.cash =
        longPos80.entry_price * longPos80.quantity + t.pnl +
          (if longPos80.direction = "long" then 1 * longPos80.quantity else 0) :=
  close_position_cash_characterization closeDemoPortfolio longPos80 110 0 1 10 rfl

/-- C7: Kelly sizing falls back to risk-percentage sizing — with identical
arguments — whenever the recorded history is shorter than
`lookback_trades`, and also when the recent window has no win, no loss, or
an average loss of zero. -/
theorem kelly_fallback_to_risk_pct (cfg : SizingCfg) (hist : List ℚ)
    (bal entry stop : ℚ) (dir : String)
    (h : hist.length < cfg.kelly.lookback_trades ∨ kellyWins cfg hist = [] ∨
         kellyLosses cfg hist = [] ∨ |listMean (kellyLosses cfg hist)| = 0) :
    calculate_kelly_size cfg hist bal entry stop dir =
      calculate_risk_pct_size cfg bal entry stop dir := by
  unfold calculate_kelly_size
  by_cases h1 : hist.length < cfg.kelly.lookback_trades
  · simp [h1]
  · simp only [h1, if_false]
    by_cases h2 : kellyWins cfg hist = [] ∨ kellyLosses cfg hist = []
    · simp [h2]
    · have h3 : |listMean (kellyLosses cfg hist)| = 0 := by tauto
      simp [h2, h3]

/-- Witness for `kelly_fallback_to_risk_pct`: empty history is shorter than
the 100-trade lookback. -/
theorem kelly_fallback_to_risk_pct_witness :
    calculate_kelly_size defaultSizingCfg [] 100000 100 90 "long" =
      calculate_risk_pct_size defaultSizingCfg 100000 100 90 "long" :=
  kelly_fallback_to_risk_pct defaultSizingCfg [] 100000 100 90 "long"
    (Or.inl (by norm_num [defaultSizingCfg]))

/-- C9 counterexample: an unknown slippage model name ("bogus") does not
fail the order — `execute_order` fills it, falling back to the
`fixed_pct` model, contradicting the claim that an unknown slippage model
name fails the order. -/
theorem unknown_slippage_model_counterexample :
    bogusSlippageExecCfg.slippage.model ∉
      (["none", "fixed_pct", "volume_based", "historical"] : List String) ∧
    (okValue (execute_order bogusSlippageExecCfg mktBuyOrder 100 none)).map
        (fun f => f.fill_price) = some 100.01 := by
  constructor
  · decide
  · simp [execute_order, calculate_slippage, calculate_commission,
      bogusSlippageExecCfg, mktBuyOrder, okValue]
    norm_num

/-- C9 amended: `execute_order` fails the order on an unknown order type, an
unknown commission type, and a limit order without a limit price — but an
unknown slippage model name is not a failure: it behaves exactly like the
`fixed_pct` model. -/
theorem execute_order_error_cases (cfg : ExecCfg) (ord : Order) (price : ℚ)
    (vol : Option ℚ) :
    (ord.order_type ∉ (["market", "limit"] : List String) →
       ∃ e, execute_order cfg ord price vol = .error e) ∧
    (ord.order_type = "limit" → ord.limit_price = none →
       ∃ e, execute_order cfg ord price vol = .error e) ∧
    (cfg.commission.ctype ∉ (["percentage", "fixed"] : List String) →
       ord.order_type = "market" →
       ∃ e, execute_order cfg ord price vol = .error e) ∧
    (cfg.slippage.model ∉
        (["none", "fixed_pct", "volume_based", "historical"] : List String) →
       execute_order cfg ord price vol =
         execute_order
           { cfg with slippage := { cfg.slippage with model := "fixed_pct" } }
           ord price vol) := by
  refine ⟨?_, ?_, ?_, ?_⟩
  · intro h
    simp only [List.mem_cons, List.mem_singleton, not_or] at h
    obtain ⟨h1, h2, -⟩ := h
    exact ⟨"알 수 없는 주문 타입: " ++ ord.order_type, by simp [execute_order, h1, h2]⟩
  · intro h1 h2
    have h3 : ord.order_type ≠ "market" := by simp [h1]
    exact ⟨"Limit 주문에는 limit_price가 필요합니다.", by simp [execute_order, h1, h2, h3]⟩
  · intro h hm
    simp only [List.mem_cons, List.mem_singleton, not_or] at h
    obtain ⟨h1, h2, -⟩ := h
    exact ⟨"알 수 없는 수수료 타입: " ++ cfg.commission.ctype,
      by simp [execute_order, calculate_commission, hm, h1, h2]⟩
  · intro h
    simp only [List.mem_cons, List.mem_singleton, not_or] at h
    obtain ⟨h1, h2, h3, h4, -⟩ := h
    simp [execute_order, calculate_slippage, h1, h2, h3, h4]

/-- Witness for `execute_order_error_cases`: a limit order without a limit
price fails. -/
theorem execute_order_error_cases_witness :
    ∃ e, execute_order defaultExecCfg
        { side := "buy", quantity := 1, order_type := "limit",
          limit_price := none, timestamp := 0 } 100 none = .error e :=
  (execute_order_error_cases defaultExecCfg
      { side := "buy", quantity := 1, order_type := "limit",
        limit_price := none, timestamp := 0 } 100 none).2.1 rfl rfl

/-- C10: calling `close_position` with no open position raises `ValueError`;
the check precedes every state write in the source, so the failed call
returns no modified portfolio (cash, equity, ledger and daily counters are
untouched). -/
theorem close_without_position_errors (p : Portfolio) (e c s : ℚ) (ts : ℤ)
    (h : p.position = none) :
    p.close_position e c s ts = .error "포지션이 없습니다." := by
  unfold Portfolio.close_position
  rw [h]

/-- Witness for `close_without_position_errors` on a concrete flat
portfolio. -/
theorem close_without_position_errors_witness :
    flatPortfolio.close_position 100 0 0 10 = .error "포지션이 없습니다." :=
  close_without_position_errors flatPortfolio 100 0 0 10 rfl

/-- C5 counterexample: in `carryState` the tracked date is day 0 and the
portfolio carries daily pnl 5 and one trade today; processing `newDayBar`
(first bar of day 1, index neither a multiple of 10 nor final, no open
position) leaves the portfolio's daily counters at (5, 1) instead of
resetting them — the portfolio only resets on bars where the equity curve
is recorded, so the reset does not happen at the first bar of the new
date. -/
theorem daily_reset_counterexample :
    carryState.portfolio.current_date = some 0 ∧
    dateOf newDayBar.timestamp ≠ dateOf 0 ∧
    (okValue (process_bar defaultEngineCfg theGetLoc carryState newDayBar)).map
        (fun st => (st.portfolio.daily_pnl, st.portfolio.daily_trades)) =
      some (5, 1) ∧
    ((5 : ℚ), (1 : ℕ)) ≠ ((0 : ℚ), (0 : ℕ)) := by
  refine ⟨rfl, by decide, ?_, by norm_num⟩
  norm_num [process_bar, preRiskState, riskDenied, stepDate, recordEquityFlag,
    Portfolio.update_equity, unrealizedPnl, check_portfolio_risk,
    gen_entry_signal_optimized, okValue, carryState, carryPortfolio, newDayBar,
    defaultEngineCfg, defaultRiskCfg, dateOf]

/-- C5 amended: the engine's own daily trade counter resets exactly at the
first bar whose calendar date differs from the engine's tracked date
(engine.py lines 313-318); the portfolio's daily counters (daily pnl and
daily trade count) reset exactly when `update_equity` is called with a
timestamp — i.e. only on bars where the equity curve is recorded — and the
date differs from the portfolio's tracked date; on non-recorded bars
(`timestamp = none`) they are never reset. -/
theorem daily_reset_characterization (p : Portfolio) (price : ℚ) (ts : ℤ)
    (s : EngineState) (bar : BarData) :
    ((p.update_equity price none).daily_pnl = p.daily_pnl ∧
     (p.update_equity price none).daily_trades = p.daily_trades) ∧
    ((p.current_date = none ∨ (∃ d, p.current_date = some d ∧ dateOf ts ≠ dateOf d)) →
       (p.update_equity price (some ts)).daily_pnl = 0 ∧
       (p.update_equity price (some ts)).daily_trades = 0) ∧
    ((∃ d, p.current_date = some d ∧ dateOf ts = dateOf d) →
       (p.update_equity price (some ts)).daily_pnl = p.daily_pnl ∧
       (p.update_equity price (some ts)).daily_trades = p.daily_trades) ∧
    ((∃ d, s.current_date = some d ∧ dateOf bar.timestamp ≠ dateOf d) →
       (stepDate s bar).daily_trades = 0) ∧
    ((s.current_date = none ∨
        (∃ d, s.current_date = some d ∧ dateOf bar.timestamp = dateOf d)) →
       (stepDate s bar).daily_trades = s.daily_trades) := by
  refine ⟨⟨?_, ?_⟩, ?_, ?_, ?_, ?_⟩
  · simp [Portfolio.update_equity]
  · simp [Portfolio.update_equity]
  · rintro (hc | ⟨d, hd, hne⟩)
    · simp [Portfolio.update_equity, hc]
    · simp [Portfolio.update_equity, hd, hne]
  · rintro ⟨d, hd, heq⟩
    simp [Portfolio.update_equity, hd, heq]
  · rintro ⟨d, hd, hne⟩
    simp [stepDate, hd, hne]
  · rintro (hc | ⟨d, hd, heq⟩)
    · simp [stepDate, hc]
    · simp [stepDate, hd, heq]

/-- Witness for `daily_reset_characterization`: a recorded equity update on a
new calendar day resets the portfolio's daily counters. -/
theorem daily_reset_characterization_witness :
    (carryPortfolio.update_equity 100 (some 1440)).daily_pnl = 0 ∧
    (carryPortfolio.update_equity 100 (some 1440)).daily_trades = 0 :=
  (daily_reset_characterization carryPortfolio 100 1440 carryState newDayBar).2.1
    (Or.inr ⟨0, rfl, by decide⟩)

/-- C1 counterexample: on `denyBar` the risk gate denies trading (equity 90
against initial capital 100000 is far over the drawdown limit) while
`longPos80` is open, yet the bar produces no Trade: the open position's
stop (80) is not breached at price 90, the regime equals the entry regime
and regime/time exits are disabled, so the strategy's exit signal is
NO_ACTION and the loop does not force-close the position. -/
theorem risk_deny_no_forced_close_counterexample :
    riskDenied defaultEngineCfg drawdownState denyBar = true ∧
    drawdownState.positions ≠ [] ∧
    (okValue (process_bar defaultEngineCfg theGetLoc drawdownState denyBar)).map
        (fun st => (st.portfolio.trades.length, st.positions.length)) =
      some (0, 1) := by
  refine ⟨?_, by decide, ?_⟩
  · norm_num [riskDenied, preRiskState, stepDate, recordEquityFlag,
      Portfolio.update_equity, unrealizedPnl, check_portfolio_risk,
      drawdownState, drawdownPortfolio, denyBar, defaultEngineCfg,
      defaultRiskCfg, dateOf, longPos80]
  · norm_num [process_bar, preRiskState, riskDenied, stepDate, recordEquityFlag,
      Portfolio.update_equity, unrealizedPnl, check_portfolio_risk,
      generate_exit_signal, check_exit_conditions, okValue,
      drawdownState, drawdownPortfolio, denyBar, defaultEngineCfg,
      defaultRiskCfg, defaultStratCfg, dateOf, longPos80, theGetLoc]

/-- C1 amended: on a bar where the risk gate denies trading while a position
is open, the loop does not unconditionally force-close: it asks the
strategy for an exit signal and closes only when that signal is not
NO_ACTION. With a NO_ACTION signal the bar leaves the trade ledger and the
position untouched; when the signal fires, exactly one Trade is appended
whose exit price is the fill price of a market close at the bar's signal
price — the signal price minus slippage for a long, plus slippage for a
short. -/
theorem risk_deny_close_characterization (cfg : EngineCfg) (getLoc : ℤ → ℕ)
    (s : EngineState) (bar : BarData) (pos : Position)
    (hdeny : riskDenied cfg s bar = true)
    (hpos : (preRiskState cfg s bar).positions.head? = some pos)
    (hpf : (preRiskState cfg s bar).portfolio.position = some pos)
    (hcomm : cfg.exec.commission.ctype = "percentage") :
    ((generate_exit_signal cfg.strat getLoc cfg.dfLen bar.idx bar.price
        bar.timestamp bar.regime pos).type = .no_action →
       process_bar cfg getLoc s bar = .ok (preRiskState cfg s bar)) ∧
    ((generate_exit_signal cfg.strat getLoc cfg.dfLen bar.idx bar.price
        bar.timestamp bar.regime pos).type ≠ .no_action →
       ∃ t s', process_bar cfg getLoc s bar = .ok s' ∧
         s'.portfolio.trades = (preRiskState cfg s bar).portfolio.trades ++ [t] ∧
         t.exit_price = (if pos.direction = "long"
            then bar.price - calculate_slippage cfg.exec.slippage bar.price
                   pos.quantity "sell" (some bar.volume)
            else bar.price + calculate_slippage cfg.exec.slippage bar.price
                   pos.quantity "buy" (some bar.volume)) ∧
         s'.positions = removeFirst (preRiskState cfg s bar).positions pos) := by
  have hprice : (generate_exit_signal cfg.strat getLoc cfg.dfLen bar.idx bar.price
      bar.timestamp bar.regime pos).price = bar.price := by
    unfold generate_exit_signal
    split_ifs <;> rfl
  have hts : (generate_exit_signal cfg.strat getLoc cfg.dfLen bar.idx bar.price
      bar.timestamp bar.regime pos).timestamp = bar.timestamp := by
    unfold generate_exit_signal
    split_ifs <;> rfl
  constructor
  · intro hna
    unfold process_bar
    rw [hdeny]
    simp only [if_true]
    rw [hpos]
    simp [hna]
  · intro hne
    unfold process_bar
    rw [hdeny]
    simp only [if_true]
    rw [hpos]
    simp only [hne, ne_eq, not_false_iff, if_true]
    unfold close_position_plain
    rw [hpos]
    unfold execute_order
    by_cases hdir : pos.direction = "long"
    · simp only [hdir, if_true, if_pos rfl]
      simp only [show ("market" : String) = "market" from rfl, if_pos rfl,
        show ¬ (("sell" : String) = "buy") by decide, if_neg, if_false]
      simp only [calculate_commission, hcomm, if_pos rfl]
      unfold Portfolio.close_position
      rw [hpf]
      rw [hprice, hts]
      refine ⟨_, _, rfl, rfl, ?_, rfl⟩
      simp [hdir]
    · simp only [hdir, if_false]
      simp only [show ("market" : String) = "market" from rfl, if_pos rfl,
        show (("buy" : String) = "buy") from rfl, if_true]
      simp only [calculate_commission, hcomm, if_pos rfl]
      unfold Portfolio.close_position
      rw [hpf]
      rw [hprice, hts]
      refine ⟨_, _, rfl, rfl, ?_, rfl⟩
      simp [hdir]

/-- Witness for `risk_deny_close_characterization`: on `denyBar` the gate
denies with `longPos80` open, the exit signal is NO_ACTION, and the bar
returns the pre-risk state unchanged. -/
theorem risk_deny_close_characterization_witness :
    process_bar defaultEngineCfg theGetLoc drawdownState denyBar =
      .ok (preRiskState defaultEngineCfg drawdownState denyBar) :=
  (risk_deny_close_characterization defaultEngineCfg theGetLoc drawdownState
      denyBar longPos80
      (by norm_num [riskDenied, preRiskState, stepDate, recordEquityFlag,
        Portfolio.update_equity, unrealizedPnl, check_portfolio_risk,
        drawdownState, drawdownPortfolio, denyBar, defaultEngineCfg,
        defaultRiskCfg, dateOf, longPos80])
      (by norm_num [preRiskState, stepDate, recordEquityFlag,
        Portfolio.update_equity, unrealizedPnl, drawdownState,
        drawdownPortfolio, denyBar, defaultEngineCfg, dateOf, longPos80])
      (by norm_num [preRiskState, stepDate, recordEquityFlag,
        Portfolio.update_equity, unrealizedPnl, drawdownState,
        drawdownPortfolio, denyBar, defaultEngineCfg, dateOf, longPos80])
      rfl).1
    (by norm_num [generate_exit_signal, check_exit_conditions,
      defaultEngineCfg, defaultStratCfg, denyBar, longPos80, theGetLoc])

end Kernel
